import Mathlib

/-!
Verification of the bempp-cl Numba kernel and assembly module
(`bempp/core/numba/kernels.py`) and the shape helper
(`bempp/api/shapes/shapes.py`).

The numeric arrays of the source are embedded as functions over the real
numbers: a `(3, n)` numpy array becomes `Fin 3 → ℕ → ℝ`, a flat buffer
becomes `ℕ → ℝ`.  Collaborator objects (the grid data structure, shapesets,
kernel evaluators passed as arguments) are embedded as function parameters,
exactly as they are parameters of the source functions.
-/

/-- `M_INV_4PI = 1.0 / (4 * np.pi)` from the source module. -/
noncomputable def M_INV_4PI : ℝ := 1 / (4 * Real.pi)

/-- Embedding of `laplace_single_layer_regular`: for each trial-point column
`j`, accumulate the squared coordinate differences and return
`m_inv_4pi / sqrt(...)`.  The normal and parameter arguments are unused, as
in the source. -/
noncomputable def laplace_single_layer_regular
    (test_point : Fin 3 → ℝ) (trial_points : Fin 3 → ℕ → ℝ)
    (test_normal : Fin 3 → ℝ) (trial_normals : Fin 3 → ℕ → ℝ)
    (kernel_parameters : ℕ → ℝ) : ℕ → ℝ := fun j =>
  M_INV_4PI / Real.sqrt (∑ i : Fin 3, (trial_points i j - test_point i) ^ 2)

/-- Embedding of `laplace_double_layer_regular`: `diff = trial - test`,
`dist = sqrt (Σ diff²)`, `output = (Σ diff·trial_normal) * (-m_inv_4pi / dist³)`. -/
noncomputable def laplace_double_layer_regular
    (test_point : Fin 3 → ℝ) (trial_points : Fin 3 → ℕ → ℝ)
    (test_normal : Fin 3 → ℝ) (trial_normals : Fin 3 → ℕ → ℝ)
    (kernel_parameters : ℕ → ℝ) : ℕ → ℝ := fun j =>
  let diff : Fin 3 → ℝ := fun i => trial_points i j - test_point i
  let dist : ℝ := Real.sqrt (∑ i : Fin 3, diff i * diff i)
  (∑ i : Fin 3, diff i * trial_normals i j) * (-M_INV_4PI / (dist * dist * dist))

/-- Embedding of `laplace_adjoint_double_layer_regular`: as the double layer
but dotted with the (single) test normal and scaled by `+m_inv_4pi / dist³`. -/
noncomputable def laplace_adjoint_double_layer_regular
    (test_point : Fin 3 → ℝ) (trial_points : Fin 3 → ℕ → ℝ)
    (test_normal : Fin 3 → ℝ) (trial_normals : Fin 3 → ℕ → ℝ)
    (kernel_parameters : ℕ → ℝ) : ℕ → ℝ := fun j =>
  let diff : Fin 3 → ℝ := fun i => trial_points i j - test_point i
  let dist : ℝ := Real.sqrt (∑ i : Fin 3, diff i * diff i)
  (∑ i : Fin 3, diff i * test_normal i) * (M_INV_4PI / (dist * dist * dist))

/-- Embedding of `laplace_single_layer_singular`: as the regular variant but
with a full array of test points, paired columnwise with the trial points. -/
noncomputable def laplace_single_layer_singular
    (test_points : Fin 3 → ℕ → ℝ) (trial_points : Fin 3 → ℕ → ℝ)
    (test_normals : Fin 3 → ℕ → ℝ) (trial_normals : Fin 3 → ℕ → ℝ)
    (kernel_parameters : ℕ → ℝ) : ℕ → ℝ := fun j =>
  M_INV_4PI / Real.sqrt (∑ i : Fin 3, (trial_points i j - test_points i j) ^ 2)

/-- Embedding of `helmholtz_single_layer_regular`.  The wavenumber is
`kernel_parameters 0 + i * kernel_parameters 1`; the real and imaginary parts
are built from `cos`/`sin`, the damping factor `exp(-k_i·r)` is only applied
on the branch where `kernel_parameters 1 ≠ 0`, and the outputs are combined
as `output_real + 1j * output_imag`. -/
noncomputable def helmholtz_single_layer_regular
    (test_point : Fin 3 → ℝ) (trial_points : Fin 3 → ℕ → ℝ)
    (test_normal : Fin 3 → ℝ) (trial_normals : Fin 3 → ℕ → ℝ)
    (kernel_parameters : ℕ → ℝ) : ℕ → ℂ := fun j =>
  let wavenumber_real : ℝ := kernel_parameters 0
  let wavenumber_imag : ℝ := kernel_parameters 1
  let rad : ℝ := Real.sqrt (∑ i : Fin 3, (trial_points i j - test_point i) ^ 2)
  let output_real0 : ℝ := Real.cos (wavenumber_real * rad) * M_INV_4PI / rad
  let output_imag0 : ℝ := Real.sin (wavenumber_real * rad) * M_INV_4PI / rad
  let output_real : ℝ :=
    if wavenumber_imag ≠ 0 then output_real0 * Real.exp (-wavenumber_imag * rad)
    else output_real0
  let output_imag : ℝ :=
    if wavenumber_imag ≠ 0 then output_imag0 * Real.exp (-wavenumber_imag * rad)
    else output_imag0
  (output_real : ℂ) + Complex.I * (output_imag : ℂ)

section LaplaceKernelClaims

/-- Concrete test point `(0,0,0)` used for witnesses. -/
def pointO : Fin 3 → ℝ := fun _ => 0

/-- Concrete trial-point array whose every column is `(1,0,0)`. -/
def pointE1 : Fin 3 → ℕ → ℝ := fun i _ => if i = 0 then 1 else 0

/-- Concrete trial-normal array whose every column is `(1,0,0)`. -/
def normalE1 : Fin 3 → ℕ → ℝ := fun i _ => if i = 0 then 1 else 0

/-- C4: the regular Laplace single-layer kernel returns, entrywise,
`1/(4π·|x−y_j|)`, and the returned values do not depend on the normal
arguments or on the kernel parameters. -/
theorem laplace_single_layer_regular_value
    (test_point : Fin 3 → ℝ) (trial_points : Fin 3 → ℕ → ℝ)
    (test_normal : Fin 3 → ℝ) (trial_normals : Fin 3 → ℕ → ℝ)
    (kernel_parameters : ℕ → ℝ) (j : ℕ)
    (h : (fun i => trial_points i j) ≠ fun i => test_point i) :
    laplace_single_layer_regular test_point trial_points test_normal
        trial_normals kernel_parameters j
      = 1 / (4 * Real.pi *
          Real.sqrt (∑ i : Fin 3, (test_point i - trial_points i j) ^ 2))
    ∧ ∀ (tn2 : Fin 3 → ℝ) (trn2 : Fin 3 → ℕ → ℝ) (kp2 : ℕ → ℝ),
        laplace_single_layer_regular test_point trial_points tn2 trn2 kp2 j
          = laplace_single_layer_regular test_point trial_points test_normal
              trial_normals kernel_parameters j := by
  constructor
  · have hsum : (∑ i : Fin 3, (test_point i - trial_points i j) ^ 2)
        = ∑ i : Fin 3, (trial_points i j - test_point i) ^ 2 := by
      apply Finset.sum_congr rfl
      intro i _
      ring
    rw [laplace_single_layer_regular, M_INV_4PI, hsum, div_div]
  · intro tn2 trn2 kp2
    rfl

/-- Witness for C4: at `test_point=(0,0,0)`, `trial_points=[(1,0,0)]` the
hypothesis holds and the kernel value is `1/(4π)`. -/
theorem laplace_single_layer_regular_value_witness :
    ((fun i => pointE1 i 0) ≠ fun i => pointO i)
    ∧ laplace_single_layer_regular pointO pointE1 (fun _ => 0) (fun _ _ => 0)
        (fun _ => 0) 0 = 1 / (4 * Real.pi) := by
  have hne : (fun i => pointE1 i 0) ≠ fun i => pointO i := by
    intro h
    have h0 := congrFun h 0
    simp [pointE1, pointO] at h0
  refine ⟨hne, ?_⟩
  have hval := (laplace_single_layer_regular_value pointO pointE1 (fun _ => 0)
    (fun _ _ => 0) (fun _ => 0) 0 hne).1
  rw [hval]
  have hsum : (∑ i : Fin 3, (pointO i - pointE1 i 0) ^ 2) = 1 := by
    simp [Fin.sum_univ_three, pointO, pointE1]
  rw [hsum, Real.sqrt_one, mul_one]

/-- C3 counterexample: at `x=(0,0,0)`, `y=(1,0,0)`, `n_trial=(1,0,0)` the
code returns `−1/(4π)` while the claimed formula
`−1/(4π)·(x−y)·n_trial/|x−y|³` evaluates to `+1/(4π)`. -/
theorem laplace_double_layer_sign_counterexample :
    laplace_double_layer_regular pointO pointE1 (fun _ => 0) normalE1
        (fun _ => 0) 0
      ≠ -(1 / (4 * Real.pi)) *
          (∑ i : Fin 3, (pointO i - pointE1 i 0) * normalE1 i 0) /
          Real.sqrt (∑ i : Fin 3, (pointO i - pointE1 i 0) ^ 2) ^ 3 := by
  have hS : (∑ i : Fin 3, (pointO i - pointE1 i 0) * normalE1 i 0) = -1 := by
    simp [Fin.sum_univ_three, pointO, pointE1, normalE1]
  have hQ : (∑ i : Fin 3, (pointO i - pointE1 i 0) ^ 2) = 1 := by
    simp [Fin.sum_univ_three, pointO, pointE1]
  have hlhs : laplace_double_layer_regular pointO pointE1 (fun _ => 0) normalE1
      (fun _ => 0) 0 = -(1 / (4 * Real.pi)) := by
    rw [laplace_double_layer_regular]
    have hQ2 : (∑ i : Fin 3, (pointE1 i 0 - pointO i) * (pointE1 i 0 - pointO i)) = 1 := by
      simp [Fin.sum_univ_three, pointO, pointE1]
    have hS2 : (∑ i : Fin 3, (pointE1 i 0 - pointO i) * normalE1 i 0) = 1 := by
      simp [Fin.sum_univ_three, pointO, pointE1, normalE1]
    simp only [hQ2, hS2, Real.sqrt_one, M_INV_4PI]
    ring
  rw [hlhs, hS, hQ, Real.sqrt_one]
  have hpos : (0:ℝ) < 1 / (4 * Real.pi) := by positivity
  intro hcontra
  rw [one_pow] at hcontra
  have : -(1 / (4 * Real.pi)) = 1 / (4 * Real.pi) := by
    rw [hcontra]; ring
  linarith

/-- C3 amended: the regular Laplace double-layer kernel returns
`−1/(4π)·(y−x)·n_trial/|x−y|³` (equivalently `+1/(4π)·(x−y)·n_trial/|x−y|³`),
the opposite sign of the claimed formula. -/
theorem laplace_double_layer_regular_value
    (test_point : Fin 3 → ℝ) (trial_points : Fin 3 → ℕ → ℝ)
    (test_normal : Fin 3 → ℝ) (trial_normals : Fin 3 → ℕ → ℝ)
    (kernel_parameters : ℕ → ℝ) (j : ℕ)
    (h : (fun i => trial_points i j) ≠ fun i => test_point i) :
    laplace_double_layer_regular test_point trial_points test_normal
        trial_normals kernel_parameters j
      = -(1 / (4 * Real.pi)) *
          (∑ i : Fin 3, (trial_points i j - test_point i) * trial_normals i j) /
          Real.sqrt (∑ i : Fin 3, (test_point i - trial_points i j) ^ 2) ^ 3 := by
  rw [laplace_double_layer_regular]
  have hsum : (∑ i : Fin 3, (test_point i - trial_points i j) ^ 2)
      = ∑ i : Fin 3, (trial_points i j - test_point i) *
          (trial_points i j - test_point i) := by
    apply Finset.sum_congr rfl
    intro i _
    ring
  rw [hsum, M_INV_4PI]
  ring

/-- Witness for C3's amended theorem: at the counterexample's concrete input
the amended formula gives `−1/(4π)`, agreeing with the code. -/
theorem laplace_double_layer_regular_value_witness :
    ((fun i => pointE1 i 0) ≠ fun i => pointO i)
    ∧ laplace_double_layer_regular pointO pointE1 (fun _ => 0) normalE1
        (fun _ => 0) 0 = -(1 / (4 * Real.pi)) := by
  have hne : (fun i => pointE1 i 0) ≠ fun i => pointO i := by
    intro h
    have h0 := congrFun h 0
    simp [pointE1, pointO] at h0
  refine ⟨hne, ?_⟩
  have hval := laplace_double_layer_regular_value pointO pointE1 (fun _ => 0)
    normalE1 (fun _ => 0) 0 hne
  rw [hval]
  have hS : (∑ i : Fin 3, (pointE1 i 0 - pointO i) * normalE1 i 0) = 1 := by
    simp [Fin.sum_univ_three, pointO, pointE1, normalE1]
  have hQ : (∑ i : Fin 3, (pointO i - pointE1 i 0) ^ 2) = 1 := by
    simp [Fin.sum_univ_three, pointO, pointE1]
  rw [hS, hQ, Real.sqrt_one, one_pow]
  ring

end LaplaceKernelClaims

section DoubleAdjointRelation

/-- C2 counterexample: at `x=(0,0,0)`, `y=(1,0,0)`, `n=(1,0,0)` both the
double layer at `(x,y,·,n)` and the adjoint double layer at `(y,x,n,·)`
evaluate to `−1/(4π)`, so the double layer does not equal the negation of
the swapped adjoint double layer. -/
theorem double_adjoint_antisymmetry_counterexample :
    laplace_double_layer_regular pointO pointE1 (fun _ => 0) normalE1
        (fun _ => 0) 0
      ≠ -(laplace_adjoint_double_layer_regular (fun i => pointE1 i 0)
            (fun i _ => pointO i) (fun i => normalE1 i 0) (fun _ _ => 0)
            (fun _ => 0) 0) := by
  have hlhs : laplace_double_layer_regular pointO pointE1 (fun _ => 0) normalE1
      (fun _ => 0) 0 = -(1 / (4 * Real.pi)) := by
    rw [laplace_double_layer_regular]
    have hQ : (∑ i : Fin 3, (pointE1 i 0 - pointO i) * (pointE1 i 0 - pointO i)) = 1 := by
      simp [Fin.sum_univ_three, pointO, pointE1]
    have hS : (∑ i : Fin 3, (pointE1 i 0 - pointO i) * normalE1 i 0) = 1 := by
      simp [Fin.sum_univ_three, pointO, pointE1, normalE1]
    simp only [hQ, hS, Real.sqrt_one, M_INV_4PI]
    ring
  have hrhs : laplace_adjoint_double_layer_regular (fun i => pointE1 i 0)
      (fun i _ => pointO i) (fun i => normalE1 i 0) (fun _ _ => 0)
      (fun _ => 0) 0 = -(1 / (4 * Real.pi)) := by
    rw [laplace_adjoint_double_layer_regular]
    have hQ : (∑ i : Fin 3, (pointO i - pointE1 i 0) * (pointO i - pointE1 i 0)) = 1 := by
      simp [Fin.sum_univ_three, pointO, pointE1]
    have hS : (∑ i : Fin 3, (pointO i - pointE1 i 0) * normalE1 i 0) = -1 := by
      simp [Fin.sum_univ_three, pointO, pointE1, normalE1]
    simp only [hQ, hS, Real.sqrt_one, M_INV_4PI]
    ring
  rw [hlhs, hrhs]
  have hpos : (0:ℝ) < 1 / (4 * Real.pi) := by positivity
  intro hcontra
  have heq : -(1 / (4 * Real.pi)) = 1 / (4 * Real.pi) := by
    calc -(1 / (4 * Real.pi)) = -(-(1 / (4 * Real.pi))) := hcontra
    _ = 1 / (4 * Real.pi) := neg_neg _
  linarith

/-- C2 amended: for distinct points the regular Laplace double-layer kernel at
`(x, y, ·, n)` EQUALS (without negation) the regular adjoint double-layer
kernel at `(y, x, n, ·)`: the pair is symmetric, not antisymmetric, under the
point/normal swap. -/
theorem double_adjoint_swap_symmetry
    (test_point : Fin 3 → ℝ) (trial_points : Fin 3 → ℕ → ℝ)
    (test_normal : Fin 3 → ℝ) (trial_normals : Fin 3 → ℕ → ℝ)
    (kernel_parameters : ℕ → ℝ) (j : ℕ)
    (h : (fun i => trial_points i j) ≠ fun i => test_point i)
    (trn2 : Fin 3 → ℕ → ℝ) (kp2 : ℕ → ℝ) :
    laplace_double_layer_regular test_point trial_points test_normal
        trial_normals kernel_parameters j
      = laplace_adjoint_double_layer_regular (fun i => trial_points i j)
          (fun i _ => test_point i) (fun i => trial_normals i j) trn2 kp2 j := by
  rw [laplace_double_layer_regular, laplace_adjoint_double_layer_regular]
  have hQ : (∑ i : Fin 3, (test_point i - trial_points i j) *
      (test_point i - trial_points i j))
      = ∑ i : Fin 3, (trial_points i j - test_point i) *
          (trial_points i j - test_point i) := by
    apply Finset.sum_congr rfl
    intro i _
    ring
  have hS : (∑ i : Fin 3, (test_point i - trial_points i j) * trial_normals i j)
      = -∑ i : Fin 3, (trial_points i j - test_point i) * trial_normals i j := by
    rw [← Finset.sum_neg_distrib]
    apply Finset.sum_congr rfl
    intro i _
    ring
  simp only [hQ, hS]
  ring

/-- Witness for C2's amended theorem at the concrete counterexample input. -/
theorem double_adjoint_swap_symmetry_witness :
    ((fun i => pointE1 i 0) ≠ fun i => pointO i)
    ∧ laplace_double_layer_regular pointO pointE1 (fun _ => 0) normalE1
        (fun _ => 0) 0
      = laplace_adjoint_double_layer_regular (fun i => pointE1 i 0)
          (fun i _ => pointO i) (fun i => normalE1 i 0) (fun _ _ => 0)
          (fun _ => 0) 0 := by
  have hne : (fun i => pointE1 i 0) ≠ fun i => pointO i := by
    intro h
    have h0 := congrFun h 0
    simp [pointE1, pointO] at h0
  exact ⟨hne, double_adjoint_swap_symmetry pointO pointE1 (fun _ => 0) normalE1
    (fun _ => 0) 0 hne (fun _ _ => 0) (fun _ => 0)⟩

end DoubleAdjointRelation

section HelmholtzClaim

/-- C7: the regular Helmholtz single-layer kernel returns the complex value
with real part `cos(k_r·r)·exp(−k_i·r)/(4π·r)` and imaginary part
`sin(k_r·r)·exp(−k_i·r)/(4π·r)`, where `r = |x−y_j|`; for `k_i = 0` this is
the same formula even though the damping factor is only applied on the
`k_i ≠ 0` branch. -/
theorem helmholtz_single_layer_regular_value
    (test_point : Fin 3 → ℝ) (trial_points : Fin 3 → ℕ → ℝ)
    (test_normal : Fin 3 → ℝ) (trial_normals : Fin 3 → ℕ → ℝ)
    (kernel_parameters : ℕ → ℝ) (j : ℕ)
    (h : (fun i => trial_points i j) ≠ fun i => test_point i) :
    (helmholtz_single_layer_regular test_point trial_points test_normal
        trial_normals kernel_parameters j).re
      = Real.cos (kernel_parameters 0 *
            Real.sqrt (∑ i : Fin 3, (trial_points i j - test_point i) ^ 2)) *
          Real.exp (-(kernel_parameters 1) *
            Real.sqrt (∑ i : Fin 3, (trial_points i j - test_point i) ^ 2)) /
          (4 * Real.pi *
            Real.sqrt (∑ i : Fin 3, (trial_points i j - test_point i) ^ 2))
    ∧ (helmholtz_single_layer_regular test_point trial_points test_normal
        trial_normals kernel_parameters j).im
      = Real.sin (kernel_parameters 0 *
            Real.sqrt (∑ i : Fin 3, (trial_points i j - test_point i) ^ 2)) *
          Real.exp (-(kernel_parameters 1) *
            Real.sqrt (∑ i : Fin 3, (trial_points i j - test_point i) ^ 2)) /
          (4 * Real.pi *
            Real.sqrt (∑ i : Fin 3, (trial_points i j - test_point i) ^ 2)) := by
  constructor
  · simp only [helmholtz_single_layer_regular, Complex.add_re, Complex.mul_re,
      Complex.I_re, Complex.I_im, Complex.ofReal_re, Complex.ofReal_im,
      zero_mul, one_mul, mul_zero, sub_zero, add_zero, zero_add]
    by_cases hk : kernel_parameters 1 = 0
    · rw [if_neg (by simp [hk]), hk, neg_zero, zero_mul, Real.exp_zero,
        M_INV_4PI]
      ring
    · rw [if_pos hk, M_INV_4PI]
      ring
  · simp only [helmholtz_single_layer_regular, Complex.add_im, Complex.mul_im,
      Complex.I_re, Complex.I_im, Complex.ofReal_re, Complex.ofReal_im,
      zero_mul, one_mul, mul_zero, sub_zero, add_zero, zero_add]
    by_cases hk : kernel_parameters 1 = 0
    · rw [if_neg (by simp [hk]), hk, neg_zero, zero_mul, Real.exp_zero,
        M_INV_4PI]
      ring
    · rw [if_pos hk, M_INV_4PI]
      ring

/-- Witness for C7: at `x=(0,0,0)`, `y=(1,0,0)`, `k=0` the kernel value has
real part `1/(4π)` and imaginary part `0`. -/
theorem helmholtz_single_layer_regular_value_witness :
    ((fun i => pointE1 i 0) ≠ fun i => pointO i)
    ∧ (helmholtz_single_layer_regular pointO pointE1 (fun _ => 0)
        (fun _ _ => 0) (fun _ => 0) 0).re = 1 / (4 * Real.pi)
    ∧ (helmholtz_single_layer_regular pointO pointE1 (fun _ => 0)
        (fun _ _ => 0) (fun _ => 0) 0).im = 0 := by
  have hne : (fun i => pointE1 i 0) ≠ fun i => pointO i := by
    intro h
    have h0 := congrFun h 0
    simp [pointE1, pointO] at h0
  have hval := helmholtz_single_layer_regular_value pointO pointE1 (fun _ => 0)
    (fun _ _ => 0) (fun _ => 0) 0 hne
  have hQ : (∑ i : Fin 3, (pointE1 i 0 - pointO i) ^ 2) = 1 := by
    simp [Fin.sum_univ_three, pointO, pointE1]
  refine ⟨hne, ?_, ?_⟩
  · rw [hval.1, hQ, Real.sqrt_one]
    simp
  · rw [hval.2, hQ, Real.sqrt_one]
    simp

end HelmholtzClaim

section RegularSingularAgreement

/-- C8: on parallel point arrays whose test column is constantly equal to a
point `p`, the singular Laplace single-layer kernel agrees entrywise with the
regular Laplace single-layer kernel evaluated with test point `p` against the
same trial array. -/
theorem laplace_single_layer_singular_regular_agree
    (test_points trial_points : Fin 3 → ℕ → ℝ) (test_point : Fin 3 → ℝ)
    (test_normals trial_normals : Fin 3 → ℕ → ℝ)
    (test_normal : Fin 3 → ℝ) (trial_normals2 : Fin 3 → ℕ → ℝ)
    (kernel_parameters : ℕ → ℝ)
    (hconst : ∀ i jj, test_points i jj = test_point i)
    (hnc : ∀ jj, (fun i => trial_points i jj) ≠ fun i => test_points i jj)
    (j : ℕ) :
    laplace_single_layer_singular test_points trial_points test_normals
        trial_normals kernel_parameters j
      = laplace_single_layer_regular test_point trial_points test_normal
          trial_normals2 kernel_parameters j := by
  rw [laplace_single_layer_singular, laplace_single_layer_regular]
  have hsum : (∑ i : Fin 3, (trial_points i j - test_points i j) ^ 2)
      = ∑ i : Fin 3, (trial_points i j - test_point i) ^ 2 := by
    apply Finset.sum_congr rfl
    intro i _
    rw [hconst]
  rw [hsum]

/-- Witness for C8 at the concrete arrays with constant test column `(0,0,0)`
and constant trial column `(1,0,0)`. -/
theorem laplace_single_layer_singular_regular_agree_witness :
    (∀ i jj, (fun (i2 : Fin 3) (_ : ℕ) => pointO i2) i jj = pointO i)
    ∧ laplace_single_layer_singular (fun i _ => pointO i) pointE1
        (fun _ _ => 0) (fun _ _ => 0) (fun _ => 0) 0
      = laplace_single_layer_regular pointO pointE1 (fun _ => 0)
          (fun _ _ => 0) (fun _ => 0) 0 := by
  have hconst : ∀ (i : Fin 3) (jj : ℕ),
      (fun (i2 : Fin 3) (_ : ℕ) => pointO i2) i jj = pointO i := fun i jj => rfl
  have hnc : ∀ jj, (fun i => pointE1 i jj)
      ≠ fun i => (fun (i2 : Fin 3) (_ : ℕ) => pointO i2) i jj := by
    intro jj h
    have h0 := congrFun h 0
    simp [pointE1, pointO] at h0
  exact ⟨hconst, laplace_single_layer_singular_regular_agree
    (fun i _ => pointO i) pointE1 pointO (fun _ _ => 0) (fun _ _ => 0)
    (fun _ => 0) (fun _ _ => 0) (fun _ => 0) hconst hnc 0⟩

end RegularSingularAgreement

section AssemblyDataModel

/-- Embedding of the grid-data collaborator interface used by the assembly
drivers: element connectivity (`elements[dim, element_index]`), per-element
normals, per-element integration elements, and the `local2global` point map.
The grid structure itself is built by an external collaborator; only the
fields read by `kernels.py` are modelled. -/
structure GridData where
  elements : Fin 3 → ℕ → ℕ
  normals : ℕ → Fin 3 → ℝ
  integration_elements : ℕ → ℝ
  local2global : ℕ → (Fin 2 → ℕ → ℝ) → Fin 3 → ℕ → ℝ

/-- Embedding of `elements_adjacent`: the 9 pairwise comparisons of the two
elements' vertex indices, combined with `or`. -/
def elements_adjacent (elements : Fin 3 → ℕ → ℕ) (index1 index2 : ℕ) : Bool :=
  (elements 0 index1 == elements 0 index2)
  || (elements 0 index1 == elements 1 index2)
  || (elements 0 index1 == elements 2 index2)
  || (elements 1 index1 == elements 0 index2)
  || (elements 1 index1 == elements 1 index2)
  || (elements 1 index1 == elements 2 index2)
  || (elements 2 index1 == elements 0 index2)
  || (elements 2 index1 == elements 1 index2)
  || (elements 2 index1 == elements 2 index2)

/-- Two elements share at least one vertex index. -/
def shares_vertex (elements : Fin 3 → ℕ → ℕ) (index1 index2 : ℕ) : Prop :=
  ∃ d1 : Fin 3, ∃ d2 : Fin 3, elements d1 index1 = elements d2 index2

/-- Embedding of `get_normals`: column `nrepetitions·index + n` of the output
holds element `elements index`'s normal scaled by its multiplier; the flat
column position decodes to the element position by division. -/
def get_normals (grid_data : GridData) (nrepetitions : ℕ) (elements : ℕ → ℕ)
    (multipliers : ℕ → ℝ) : Fin 3 → ℕ → ℝ := fun dim idx =>
  grid_data.normals (elements (idx / nrepetitions)) dim
    * multipliers (elements (idx / nrepetitions))

/-- Embedding of `get_global_points`: column `npoints·index + p` of the output
is column `p` of `local2global` applied to element `elements index`. -/
def get_global_points (grid_data : GridData) (elements : ℕ → ℕ)
    (local_points : Fin 2 → ℕ → ℝ) (npoints : ℕ) : Fin 3 → ℕ → ℝ :=
  fun dim idx =>
    grid_data.local2global (elements (idx / npoints)) local_points dim
      (idx % npoints)

/-- The type of a regular kernel evaluator as called by
`default_scalar_regular_kernel`: one test point, a trial-point array, one
test normal, a trial-normal array and kernel parameters, producing a flat
array of kernel values. -/
def RegularKernelEvaluator : Type :=
  (Fin 3 → ℝ) → (Fin 3 → ℕ → ℝ) → (Fin 3 → ℝ) → (Fin 3 → ℕ → ℝ) →
    (ℕ → ℝ) → ℕ → ℝ

/-- The unskipped contribution of one (test element, trial element) pair to
the local result buffer of `default_scalar_regular_kernel`, at one
(test-basis, trial-basis) position: the accumulation
`tmp[trial_element_index*n_quad_points + qp] * trial_shape * test_shape`
summed over the test and trial quadrature points, where
`tmp[idx] = kernel_values[idx] * (local_factors[idx] * quad_weights[tp])`,
`local_factors[idx] = factors[idx] * integration_element(test_element)` and
`factors[n_quad_points*t + p] = quad_weights[p] * integration_element(trial_elements t)`. -/
noncomputable def regular_pair_contribution
    (test_grid_data trial_grid_data : GridData)
    (trial_elements : ℕ → ℕ)
    (quad_points : Fin 2 → ℕ → ℝ) (quad_weights : ℕ → ℝ) (n_quad_points : ℕ)
    (trial_normal_multipliers : ℕ → ℝ)
    (kernel_evaluator : RegularKernelEvaluator) (kernel_parameters : ℕ → ℝ)
    (test_shapeset trial_shapeset : (Fin 2 → ℕ → ℝ) → ℕ → ℕ → ℕ → ℝ)
    (test_element : ℕ)
    (trial_element_index test_fun_index trial_fun_index : ℕ) : ℝ :=
  let local_test_fun_values := test_shapeset quad_points
  let local_trial_fun_values := trial_shapeset quad_points
  let trial_normals := get_normals trial_grid_data n_quad_points trial_elements
    trial_normal_multipliers
  let trial_global_points := get_global_points trial_grid_data trial_elements
    quad_points n_quad_points
  let factors : ℕ → ℝ := fun index =>
    quad_weights (index % n_quad_points)
      * trial_grid_data.integration_elements (trial_elements (index / n_quad_points))
  let local_factors : ℕ → ℝ := fun index =>
    factors index * test_grid_data.integration_elements test_element
  let test_global_points := test_grid_data.local2global test_element quad_points
  let test_normal : Fin 3 → ℝ := fun dim => test_grid_data.normals test_element dim
  ∑ test_point_index ∈ Finset.range n_quad_points,
    ∑ quad_point_index ∈ Finset.range n_quad_points,
      (kernel_evaluator (fun dim => test_global_points dim test_point_index)
          trial_global_points test_normal trial_normals kernel_parameters
          (trial_element_index * n_quad_points + quad_point_index)
        * (local_factors (trial_element_index * n_quad_points + quad_point_index)
            * quad_weights test_point_index))
      * local_trial_fun_values 0 trial_fun_index quad_point_index
      * local_test_fun_values 0 test_fun_index test_point_index

/-- The final value of one cell of the per-test-element local result buffer
of `default_scalar_regular_kernel`: the buffer starts at zero and the
accumulation loop `continue`s past trial elements marked adjacent, so an
adjacent pair's cell stays `0`; otherwise the cell holds the pair's
accumulated contribution.  A trial element is marked adjacent exactly when
`grids_identical` holds and `elements_adjacent` reports a shared vertex. -/
noncomputable def regular_local_result
    (test_grid_data trial_grid_data : GridData)
    (trial_elements : ℕ → ℕ)
    (quad_points : Fin 2 → ℕ → ℝ) (quad_weights : ℕ → ℝ) (n_quad_points : ℕ)
    (trial_normal_multipliers : ℕ → ℝ)
    (kernel_evaluator : RegularKernelEvaluator) (kernel_parameters : ℕ → ℝ)
    (grids_identical : Bool)
    (test_shapeset trial_shapeset : (Fin 2 → ℕ → ℝ) → ℕ → ℕ → ℕ → ℝ)
    (test_element : ℕ)
    (trial_element_index test_fun_index trial_fun_index : ℕ) : ℝ :=
  if grids_identical
      && elements_adjacent test_grid_data.elements test_element
          (trial_elements trial_element_index) then 0
  else
    regular_pair_contribution test_grid_data trial_grid_data trial_elements
      quad_points quad_weights n_quad_points trial_normal_multipliers
      kernel_evaluator kernel_parameters test_shapeset trial_shapeset
      test_element trial_element_index test_fun_index trial_fun_index

/-- Modelled from the spec: the element connectivity of the
`regular_sphere(0)` mesh, an octahedron with 8 triangular elements over the
6 vertices `(±1,0,0),(0,±1,0),(0,0,±1)` (numbered `0..5` as
`+x,+y,-x,-y,+z,-z`).  The stored mesh file `regular_spheres.npz` is an
external data artifact and is not part of the sources. -/
def octahedron_elements : Fin 3 → ℕ → ℕ := fun dim el =>
  (([[0, 1, 4], [1, 2, 4], [2, 3, 4], [3, 0, 4],
     [1, 0, 5], [2, 1, 5], [3, 2, 5], [0, 3, 5]].getD el []).getD dim.val 0)

/-- The unique element of the octahedron sharing no vertex with a given
element: its antipodal face. -/
def octahedron_opposite (el : ℕ) : ℕ :=
  [6, 7, 4, 5, 2, 3, 0, 1].getD el 0

end AssemblyDataModel

section RegularDriverClaim

/-- C1: in `default_scalar_regular_kernel`, (1) when `grids_identical` is
true, every (test element, trial element) pair whose elements share at least
one vertex index (including self pairs) contributes nothing — its local
result cell stays `0`; (2) when `grids_identical` is false no pair is ever
skipped — every local result cell equals the unskipped pair contribution;
(3) when `grids_identical` is true, non-adjacent pairs still contribute their
full pair contribution; (4) `elements_adjacent` reports exactly shared-vertex
membership; on the `regular_sphere(0)` octahedron, (5) every one of the 8
self pairs is adjacent (hence excluded) and (6) a pair is non-adjacent
exactly when the trial element is the test element's antipodal face, so only
those strictly non-adjacent pairs contribute. -/
theorem regular_driver_adjacency_exclusion :
    (∀ (test_grid_data trial_grid_data : GridData) (trial_elements : ℕ → ℕ)
        (quad_points : Fin 2 → ℕ → ℝ) (quad_weights : ℕ → ℝ)
        (n_quad_points : ℕ) (trial_normal_multipliers : ℕ → ℝ)
        (kernel_evaluator : RegularKernelEvaluator) (kernel_parameters : ℕ → ℝ)
        (test_shapeset trial_shapeset : (Fin 2 → ℕ → ℝ) → ℕ → ℕ → ℕ → ℝ)
        (test_element trial_element_index test_fun_index trial_fun_index : ℕ),
        elements_adjacent test_grid_data.elements test_element
            (trial_elements trial_element_index) = true →
        regular_local_result test_grid_data trial_grid_data trial_elements
            quad_points quad_weights n_quad_points trial_normal_multipliers
            kernel_evaluator kernel_parameters true test_shapeset
            trial_shapeset test_element trial_element_index test_fun_index
            trial_fun_index = 0)
    ∧ (∀ (test_grid_data trial_grid_data : GridData) (trial_elements : ℕ → ℕ)
        (quad_points : Fin 2 → ℕ → ℝ) (quad_weights : ℕ → ℝ)
        (n_quad_points : ℕ) (trial_normal_multipliers : ℕ → ℝ)
        (kernel_evaluator : RegularKernelEvaluator) (kernel_parameters : ℕ → ℝ)
        (test_shapeset trial_shapeset : (Fin 2 → ℕ → ℝ) → ℕ → ℕ → ℕ → ℝ)
        (test_element trial_element_index test_fun_index trial_fun_index : ℕ),
        regular_local_result test_grid_data trial_grid_data trial_elements
            quad_points quad_weights n_quad_points trial_normal_multipliers
            kernel_evaluator kernel_parameters false test_shapeset
            trial_shapeset test_element trial_element_index test_fun_index
            trial_fun_index
          = regular_pair_contribution test_grid_data trial_grid_data
              trial_elements quad_points quad_weights n_quad_points
              trial_normal_multipliers kernel_evaluator kernel_parameters
              test_shapeset trial_shapeset test_element trial_element_index
              test_fun_index trial_fun_index)
    ∧ (∀ (test_grid_data trial_grid_data : GridData) (trial_elements : ℕ → ℕ)
        (quad_points : Fin 2 → ℕ → ℝ) (quad_weights : ℕ → ℝ)
        (n_quad_points : ℕ) (trial_normal_multipliers : ℕ → ℝ)
        (kernel_evaluator : RegularKernelEvaluator) (kernel_parameters : ℕ → ℝ)
        (test_shapeset trial_shapeset : (Fin 2 → ℕ → ℝ) → ℕ → ℕ → ℕ → ℝ)
        (test_element trial_element_index test_fun_index trial_fun_index : ℕ),
        elements_adjacent test_grid_data.elements test_element
            (trial_elements trial_element_index) = false →
        regular_local_result test_grid_data trial_grid_data trial_elements
            quad_points quad_weights n_quad_points trial_normal_multipliers
            kernel_evaluator kernel_parameters true test_shapeset
            trial_shapeset test_element trial_element_index test_fun_index
            trial_fun_index
          = regular_pair_contribution test_grid_data trial_grid_data
              trial_elements quad_points quad_weights n_quad_points
              trial_normal_multipliers kernel_evaluator kernel_parameters
              test_shapeset trial_shapeset test_element trial_element_index
              test_fun_index trial_fun_index)
    ∧ (∀ (elements : Fin 3 → ℕ → ℕ) (index1 index2 : ℕ),
        elements_adjacent elements index1 index2 = true
          ↔ shares_vertex elements index1 index2)
    ∧ (∀ i ∈ Finset.range 8,
        elements_adjacent octahedron_elements i i = true)
    ∧ (∀ i ∈ Finset.range 8, ∀ j ∈ Finset.range 8,
        (elements_adjacent octahedron_elements i j = false
          ↔ j = octahedron_opposite i)) := by
  refine ⟨?_, ?_, ?_, ?_, ?_, ?_⟩
  · intro tg trg te qp qw nq tnm ke kp ts trs e tidx tf trf h
    simp [regular_local_result, h]
  · intro tg trg te qp qw nq tnm ke kp ts trs e tidx tf trf
    simp [regular_local_result]
  · intro tg trg te qp qw nq tnm ke kp ts trs e tidx tf trf h
    simp [regular_local_result, h]
  · intro elements index1 index2
    have hexp : elements_adjacent elements index1 index2 = true
        ↔ (elements 0 index1 = elements 0 index2
          ∨ elements 0 index1 = elements 1 index2
          ∨ elements 0 index1 = elements 2 index2
          ∨ elements 1 index1 = elements 0 index2
          ∨ elements 1 index1 = elements 1 index2
          ∨ elements 1 index1 = elements 2 index2
          ∨ elements 2 index1 = elements 0 index2
          ∨ elements 2 index1 = elements 1 index2
          ∨ elements 2 index1 = elements 2 index2) := by
      simp [elements_adjacent, Bool.or_eq_true, beq_iff_eq, or_assoc]
    rw [hexp]
    constructor
    · intro h
      rcases h with h | h | h | h | h | h | h | h | h
      · exact ⟨0, 0, h⟩
      · exact ⟨0, 1, h⟩
      · exact ⟨0, 2, h⟩
      · exact ⟨1, 0, h⟩
      · exact ⟨1, 1, h⟩
      · exact ⟨1, 2, h⟩
      · exact ⟨2, 0, h⟩
      · exact ⟨2, 1, h⟩
      · exact ⟨2, 2, h⟩
    · rintro ⟨d1, d2, h⟩
      fin_cases d1 <;> fin_cases d2 <;> tauto
  · decide
  · decide

/-- A trivial grid over the octahedron connectivity, used to exercise the
regular driver at a concrete input. -/
def octahedronGridData : GridData where
  elements := octahedron_elements
  normals := fun _ _ => 0
  integration_elements := fun _ => 0
  local2global := fun _ _ _ _ => 0

/-- Witness for C1: on the octahedron grid the self pair `(0,0)` is adjacent
and its local result cell is `0`. -/
theorem regular_driver_adjacency_exclusion_witness :
    elements_adjacent octahedron_elements 0 0 = true
    ∧ regular_local_result octahedronGridData octahedronGridData (fun k => k)
        (fun _ _ => 0) (fun _ => 0) 0 (fun _ => 0) (fun _ _ _ _ _ _ => 0)
        (fun _ => 0) true (fun _ _ _ _ => 0) (fun _ _ _ _ => 0)
        0 0 0 0 = 0 := by
  have hadj : elements_adjacent octahedron_elements 0 0 = true := by decide
  refine ⟨hadj, ?_⟩
  exact regular_driver_adjacency_exclusion.1 octahedronGridData
    octahedronGridData (fun k => k) (fun _ _ => 0) (fun _ => 0) 0 (fun _ => 0)
    (fun _ _ _ _ _ _ => 0) (fun _ => 0) (fun _ _ _ _ => 0) (fun _ _ _ _ => 0)
    0 0 0 0 hadj

end RegularDriverClaim

section FlatIndexHelpers

/-- Decoding a flat cell offset `tf * n + trf` with `trf < n` recovers the
basis pair by division and remainder. -/
theorem flat_index_decode (n tf trf : ℕ) (htrf : trf < n) :
    (tf * n + trf) / n = tf ∧ (tf * n + trf) % n = trf := by
  have hn : 0 < n := Nat.lt_of_le_of_lt (Nat.zero_le trf) htrf
  have h1 : tf * n + trf = trf + n * tf := by ring
  constructor
  · rw [h1, Nat.add_mul_div_left _ _ hn, Nat.div_eq_of_lt htrf, Nat.zero_add]
  · rw [h1, Nat.add_mul_mod_self_left, Nat.mod_eq_of_lt htrf]

/-- A flat cell offset stays inside its `nshape_test * nshape_trial` block. -/
theorem flat_index_lt (nst nt tf trf : ℕ) (htf : tf < nst) (htrf : trf < nt) :
    tf * nt + trf < nst * nt := by
  calc tf * nt + trf < tf * nt + nt := Nat.add_lt_add_left htrf _
  _ = (tf + 1) * nt := by ring
  _ ≤ nst * nt := Nat.mul_le_mul_right nt htf

end FlatIndexHelpers

section SingularDriverClaim

/-- The type of a singular kernel evaluator as called by
`default_scalar_singular_kernel`: parallel test/trial point arrays, parallel
normal arrays and kernel parameters, producing a flat array of values. -/
def SingularKernelEvaluator : Type :=
  (Fin 3 → ℕ → ℝ) → (Fin 3 → ℕ → ℝ) → (Fin 3 → ℕ → ℝ) → (Fin 3 → ℕ → ℝ) →
    (ℕ → ℝ) → ℕ → ℝ

/-- The value written by one work item of `default_scalar_singular_kernel`
into the cell of one (test-basis, trial-basis) pair: slice the shared
point/weight buffers at the item's offsets, map both slices to global
coordinates, evaluate both shapesets and the kernel, accumulate
`kernel_value * weight * test_shape * trial_shape` over the item's
quadrature points onto the previous cell content, then scale the cell by the
product of the two elements' integration elements. -/
noncomputable def default_scalar_singular_cell
    (grid_data : GridData)
    (test_points trial_points : Fin 2 → ℕ → ℝ)
    (quad_weights : ℕ → ℝ)
    (test_elements trial_elements test_offsets trial_offsets weights_offsets
      number_of_quad_points : ℕ → ℕ)
    (test_normal_multipliers trial_normal_multipliers : ℕ → ℝ)
    (nshape_test nshape_trial : ℕ)
    (test_shapeset trial_shapeset : (Fin 2 → ℕ → ℝ) → ℕ → ℕ → ℕ → ℝ)
    (kernel_evaluator : SingularKernelEvaluator) (kernel_parameters : ℕ → ℝ)
    (result : ℕ → ℝ) (index test_fun_index trial_fun_index : ℕ) : ℝ :=
  let test_element := test_elements index
  let trial_element := trial_elements index
  let test_offset := test_offsets index
  let trial_offset := trial_offsets index
  let weights_offset := weights_offsets index
  let npoints := number_of_quad_points index
  let test_local_points : Fin 2 → ℕ → ℝ := fun d p => test_points d (test_offset + p)
  let trial_local_points : Fin 2 → ℕ → ℝ := fun d p => trial_points d (trial_offset + p)
  let test_global_points := grid_data.local2global test_element test_local_points
  let trial_global_points := grid_data.local2global trial_element trial_local_points
  let test_fun_values := test_shapeset test_local_points
  let trial_fun_values := trial_shapeset trial_local_points
  let test_normals := get_normals grid_data npoints (fun _ => test_element)
    test_normal_multipliers
  let trial_normals := get_normals grid_data npoints (fun _ => trial_element)
    trial_normal_multipliers
  let kernel_values := kernel_evaluator test_global_points trial_global_points
    test_normals trial_normals kernel_parameters
  (result (nshape_trial * nshape_test * index
        + test_fun_index * nshape_trial + trial_fun_index)
      + ∑ point_index ∈ Finset.range npoints,
          kernel_values point_index
            * quad_weights (weights_offset + point_index)
            * test_fun_values 0 test_fun_index point_index
            * trial_fun_values 0 trial_fun_index point_index)
    * (grid_data.integration_elements test_element
        * grid_data.integration_elements trial_element)

/-- The result buffer after one work item of
`default_scalar_singular_kernel`: the item's own contiguous block of
`nshape_test * nshape_trial` cells receives the cell values above (the block
position decodes the basis pair), every other cell is untouched. -/
noncomputable def default_scalar_singular_update
    (grid_data : GridData)
    (test_points trial_points : Fin 2 → ℕ → ℝ)
    (quad_weights : ℕ → ℝ)
    (test_elements trial_elements test_offsets trial_offsets weights_offsets
      number_of_quad_points : ℕ → ℕ)
    (test_normal_multipliers trial_normal_multipliers : ℕ → ℝ)
    (nshape_test nshape_trial : ℕ)
    (test_shapeset trial_shapeset : (Fin 2 → ℕ → ℝ) → ℕ → ℕ → ℕ → ℝ)
    (kernel_evaluator : SingularKernelEvaluator) (kernel_parameters : ℕ → ℝ)
    (result : ℕ → ℝ) (index : ℕ) : ℕ → ℝ := fun k =>
  let base := nshape_trial * nshape_test * index
  if base ≤ k ∧ k < base + nshape_test * nshape_trial then
    default_scalar_singular_cell grid_data test_points trial_points
      quad_weights test_elements trial_elements test_offsets trial_offsets
      weights_offsets number_of_quad_points test_normal_multipliers
      trial_normal_multipliers nshape_test nshape_trial test_shapeset
      trial_shapeset kernel_evaluator kernel_parameters result index
      ((k - base) / nshape_trial) ((k - base) % nshape_trial)
  else result k

/-- C5: starting from a zero result buffer, work item `index` of the
singular driver leaves, in the cell at flat position
`(nshape_test*nshape_trial)*index + test_fun_index*nshape_trial + trial_fun_index`,
the sum over the item's quadrature points of
`kernel_value * weight * test_shape * trial_shape`, multiplied by the product
of the test and trial integration elements; every cell outside the item's
block is untouched. -/
theorem singular_driver_output_layout
    (grid_data : GridData)
    (test_points trial_points : Fin 2 → ℕ → ℝ)
    (quad_weights : ℕ → ℝ)
    (test_elements trial_elements test_offsets trial_offsets weights_offsets
      number_of_quad_points : ℕ → ℕ)
    (test_normal_multipliers trial_normal_multipliers : ℕ → ℝ)
    (nshape_test nshape_trial : ℕ)
    (test_shapeset trial_shapeset : (Fin 2 → ℕ → ℝ) → ℕ → ℕ → ℕ → ℝ)
    (kernel_evaluator : SingularKernelEvaluator) (kernel_parameters : ℕ → ℝ)
    (index test_fun_index trial_fun_index : ℕ)
    (htf : test_fun_index < nshape_test) (htrf : trial_fun_index < nshape_trial) :
    default_scalar_singular_update grid_data test_points trial_points
        quad_weights test_elements trial_elements test_offsets trial_offsets
        weights_offsets number_of_quad_points test_normal_multipliers
        trial_normal_multipliers nshape_test nshape_trial test_shapeset
        trial_shapeset kernel_evaluator kernel_parameters (fun _ => 0) index
        (nshape_trial * nshape_test * index
          + test_fun_index * nshape_trial + trial_fun_index)
      = (∑ point_index ∈ Finset.range (number_of_quad_points index),
          kernel_evaluator
              (grid_data.local2global (test_elements index)
                (fun d p => test_points d (test_offsets index + p)))
              (grid_data.local2global (trial_elements index)
                (fun d p => trial_points d (trial_offsets index + p)))
              (get_normals grid_data (number_of_quad_points index)
                (fun _ => test_elements index) test_normal_multipliers)
              (get_normals grid_data (number_of_quad_points index)
                (fun _ => trial_elements index) trial_normal_multipliers)
              kernel_parameters point_index
            * quad_weights (weights_offsets index + point_index)
            * test_shapeset (fun d p => test_points d (test_offsets index + p))
                0 test_fun_index point_index
            * trial_shapeset (fun d p => trial_points d (trial_offsets index + p))
                0 trial_fun_index point_index)
        * (grid_data.integration_elements (test_elements index)
            * grid_data.integration_elements (trial_elements index))
    ∧ ∀ (k : ℕ) (result : ℕ → ℝ),
        (k < nshape_trial * nshape_test * index
          ∨ nshape_trial * nshape_test * index
              + nshape_test * nshape_trial ≤ k) →
        default_scalar_singular_update grid_data test_points trial_points
            quad_weights test_elements trial_elements test_offsets
            trial_offsets weights_offsets number_of_quad_points
            test_normal_multipliers trial_normal_multipliers nshape_test
            nshape_trial test_shapeset trial_shapeset kernel_evaluator
            kernel_parameters result index k
          = result k := by
  constructor
  · have hin : nshape_trial * nshape_test * index
        ≤ nshape_trial * nshape_test * index
          + test_fun_index * nshape_trial + trial_fun_index :=
      Nat.le_trans (Nat.le_add_right _ _) (Nat.le_add_right _ _)
    have hlt : nshape_trial * nshape_test * index
          + test_fun_index * nshape_trial + trial_fun_index
        < nshape_trial * nshape_test * index + nshape_test * nshape_trial := by
      have h1 := flat_index_lt nshape_test nshape_trial test_fun_index
        trial_fun_index htf htrf
      calc nshape_trial * nshape_test * index
            + test_fun_index * nshape_trial + trial_fun_index
          = nshape_trial * nshape_test * index
            + (test_fun_index * nshape_trial + trial_fun_index) := by ring
      _ < nshape_trial * nshape_test * index + nshape_test * nshape_trial :=
          Nat.add_lt_add_left h1 _
    have hsub : nshape_trial * nshape_test * index
        + test_fun_index * nshape_trial + trial_fun_index
        - nshape_trial * nshape_test * index
        = test_fun_index * nshape_trial + trial_fun_index := by
      rw [Nat.add_assoc, Nat.add_sub_cancel_left]
    simp only [default_scalar_singular_update]
    rw [if_pos ⟨hin, hlt⟩, hsub,
      (flat_index_decode nshape_trial test_fun_index trial_fun_index htrf).1,
      (flat_index_decode nshape_trial test_fun_index trial_fun_index htrf).2]
    simp only [default_scalar_singular_cell]
    rw [zero_add]
  · intro k result hk
    simp only [default_scalar_singular_update]
    rw [if_neg]
    rintro ⟨h1, h2⟩
    rcases hk with hlo | hhi
    · exact Nat.lt_irrefl k (Nat.lt_of_lt_of_le hlo h1)
    · exact Nat.lt_irrefl k (Nat.lt_of_lt_of_le h2 hhi)

/-- A grid whose every field is zero, used to exercise the drivers at a
concrete input. -/
def zeroGridData : GridData where
  elements := fun _ _ => 0
  normals := fun _ _ => 0
  integration_elements := fun _ => 0
  local2global := fun _ _ _ _ => 0

/-- Witness for C5 at a concrete one-basis work item with an empty
quadrature slice: the output cell evaluates to `0`. -/
theorem singular_driver_output_layout_witness :
    (0:ℕ) < 1
    ∧ default_scalar_singular_update zeroGridData (fun _ _ => 0)
        (fun _ _ => 0) (fun _ => 0) (fun _ => 0) (fun _ => 0) (fun _ => 0)
        (fun _ => 0) (fun _ => 0) (fun _ => 0) (fun _ => 0) (fun _ => 0) 1 1
        (fun _ _ _ _ => 0) (fun _ _ _ _ => 0) (fun _ _ _ _ _ _ => 0)
        (fun _ => 0) (fun _ => 0) 0 (1 * 1 * 0 + 0 * 1 + 0) = 0 := by
  refine ⟨Nat.zero_lt_one, ?_⟩
  have h := (singular_driver_output_layout zeroGridData (fun _ _ => 0)
    (fun _ _ => 0) (fun _ => 0) (fun _ => 0) (fun _ => 0) (fun _ => 0)
    (fun _ => 0) (fun _ => 0) (fun _ => 0) (fun _ => 0) (fun _ => 0) 1 1
    (fun _ _ _ _ => 0) (fun _ _ _ _ => 0) (fun _ _ _ _ _ _ => 0)
    (fun _ => 0) 0 0 0 Nat.zero_lt_one Nat.zero_lt_one).1
  rw [h]
  simp

end SingularDriverClaim

section SparseDriverClaim

/-- The type of a sparse kernel evaluator as called by
`default_sparse_kernel` (the `dimension` and `n_quad_points` shape arguments
of the shape-function value array are passed explicitly). -/
def SparseKernelEvaluator : Type :=
  GridData → ℕ → ℕ → ℕ → (ℕ → ℕ) → (Fin 2 → ℕ → ℝ) → (ℕ → ℝ) →
    (Fin 3 → ℕ → ℝ) → (Fin 3 → ℕ → ℝ) →
    ((Fin 2 → ℕ → ℝ) → ℕ → ℕ → ℕ → ℝ) →
    ((Fin 2 → ℕ → ℝ) → ℕ → ℕ → ℕ → ℝ) →
    ℕ → ℕ → (ℕ → ℝ) → ℕ → ℝ

/-- The value accumulated by `l2_identity_kernel` into the cell of one
(test-basis, trial-basis) pair of one element: the previous cell content
plus the local Gram sum
`Σ_dim Σ_quad test_shape * trial_shape * weight * integration_element`. -/
noncomputable def l2_identity_kernel_cell
    (grid_data : GridData) (nshape_test nshape_trial element_index : ℕ)
    (elements : ℕ → ℕ) (quad_points : Fin 2 → ℕ → ℝ) (quad_weights : ℕ → ℝ)
    (trial_normals test_normals : Fin 3 → ℕ → ℝ)
    (test_shapeset trial_shapeset : (Fin 2 → ℕ → ℝ) → ℕ → ℕ → ℕ → ℝ)
    (dimension n_quad_points : ℕ) (result : ℕ → ℝ)
    (test_index trial_index : ℕ) : ℝ :=
  let local_test_fun_values := test_shapeset quad_points
  let local_trial_fun_values := trial_shapeset quad_points
  let nshape := nshape_test * nshape_trial
  let element := elements element_index
  let integration_element := grid_data.integration_elements element
  result (nshape * element_index + test_index * nshape_trial + trial_index)
    + ∑ dim_index ∈ Finset.range dimension,
        ∑ quad_index ∈ Finset.range n_quad_points,
          local_test_fun_values dim_index test_index quad_index
            * local_trial_fun_values dim_index trial_index quad_index
            * quad_weights quad_index * integration_element

/-- Embedding of `l2_identity_kernel` as a result-buffer transformer: the
element's own block of `nshape_test * nshape_trial` cells receives the Gram
accumulation (the block offset decodes the basis pair), all other cells are
untouched.  No Green's-function kernel evaluator appears among its
arguments, mirroring the source signature. -/
noncomputable def l2_identity_kernel
    (grid_data : GridData) (nshape_test nshape_trial element_index : ℕ)
    (elements : ℕ → ℕ) (quad_points : Fin 2 → ℕ → ℝ) (quad_weights : ℕ → ℝ)
    (trial_normals test_normals : Fin 3 → ℕ → ℝ)
    (test_shapeset trial_shapeset : (Fin 2 → ℕ → ℝ) → ℕ → ℕ → ℕ → ℝ)
    (dimension n_quad_points : ℕ) (result : ℕ → ℝ) : ℕ → ℝ := fun k =>
  let nshape := nshape_test * nshape_trial
  if nshape * element_index ≤ k ∧ k < nshape * element_index + nshape then
    l2_identity_kernel_cell grid_data nshape_test nshape_trial element_index
      elements quad_points quad_weights trial_normals test_normals
      test_shapeset trial_shapeset dimension n_quad_points result
      ((k - nshape * element_index) / nshape_trial)
      ((k - nshape * element_index) % nshape_trial)
  else result k

/-- Embedding of `default_sparse_kernel`: compute the replicated normal
arrays once, then run the kernel evaluator over every element index in
order, threading the result buffer. -/
noncomputable def default_sparse_kernel
    (grid_data : GridData) (nshape_test nshape_trial : ℕ) (elements : ℕ → ℕ)
    (nelements : ℕ)
    (quad_points : Fin 2 → ℕ → ℝ) (quad_weights : ℕ → ℝ)
    (test_normal_multipliers trial_normal_multipliers : ℕ → ℝ)
    (test_shapeset trial_shapeset : (Fin 2 → ℕ → ℝ) → ℕ → ℕ → ℕ → ℝ)
    (dimension n_quad_points : ℕ)
    (kernel_evaluator : SparseKernelEvaluator)
    (result : ℕ → ℝ) : ℕ → ℝ :=
  let trial_normals := get_normals grid_data n_quad_points elements
    trial_normal_multipliers
  let test_normals := get_normals grid_data n_quad_points elements
    test_normal_multipliers
  (List.range nelements).foldl
    (fun res element_index =>
      kernel_evaluator grid_data nshape_test nshape_trial element_index
        elements quad_points quad_weights trial_normals test_normals
        test_shapeset trial_shapeset dimension n_quad_points res)
    result

/-- `l2_identity_kernel` leaves every cell outside its element's block
unchanged. -/
theorem l2_identity_kernel_outside
    (grid_data : GridData) (nshape_test nshape_trial element_index : ℕ)
    (elements : ℕ → ℕ) (quad_points : Fin 2 → ℕ → ℝ) (quad_weights : ℕ → ℝ)
    (trial_normals test_normals : Fin 3 → ℕ → ℝ)
    (test_shapeset trial_shapeset : (Fin 2 → ℕ → ℝ) → ℕ → ℕ → ℕ → ℝ)
    (dimension n_quad_points : ℕ) (result : ℕ → ℝ) (k : ℕ)
    (hk : k < nshape_test * nshape_trial * element_index
      ∨ nshape_test * nshape_trial * element_index
          + nshape_test * nshape_trial ≤ k) :
    l2_identity_kernel grid_data nshape_test nshape_trial element_index
        elements quad_points quad_weights trial_normals test_normals
        test_shapeset trial_shapeset dimension n_quad_points result k
      = result k := by
  simp only [l2_identity_kernel]
  rw [if_neg]
  rintro ⟨h1, h2⟩
  rcases hk with hlo | hhi
  · exact Nat.lt_irrefl k (Nat.lt_of_lt_of_le hlo h1)
  · exact Nat.lt_irrefl k (Nat.lt_of_lt_of_le h2 hhi)

/-- `l2_identity_kernel` at a cell of its element's block: the previous
content plus the local Gram sum. -/
theorem l2_identity_kernel_at
    (grid_data : GridData) (nshape_test nshape_trial element_index : ℕ)
    (elements : ℕ → ℕ) (quad_points : Fin 2 → ℕ → ℝ) (quad_weights : ℕ → ℝ)
    (trial_normals test_normals : Fin 3 → ℕ → ℝ)
    (test_shapeset trial_shapeset : (Fin 2 → ℕ → ℝ) → ℕ → ℕ → ℕ → ℝ)
    (dimension n_quad_points : ℕ) (result : ℕ → ℝ)
    (test_index trial_index : ℕ)
    (htf : test_index < nshape_test) (htrf : trial_index < nshape_trial) :
    l2_identity_kernel grid_data nshape_test nshape_trial element_index
        elements quad_points quad_weights trial_normals test_normals
        test_shapeset trial_shapeset dimension n_quad_points result
        (nshape_test * nshape_trial * element_index
          + test_index * nshape_trial + trial_index)
      = result (nshape_test * nshape_trial * element_index
            + test_index * nshape_trial + trial_index)
        + ∑ dim_index ∈ Finset.range dimension,
            ∑ quad_index ∈ Finset.range n_quad_points,
              test_shapeset quad_points dim_index test_index quad_index
                * trial_shapeset quad_points dim_index trial_index quad_index
                * quad_weights quad_index
                * grid_data.integration_elements (elements element_index) := by
  have hin : nshape_test * nshape_trial * element_index
      ≤ nshape_test * nshape_trial * element_index
        + test_index * nshape_trial + trial_index :=
    Nat.le_trans (Nat.le_add_right _ _) (Nat.le_add_right _ _)
  have hlt : nshape_test * nshape_trial * element_index
        + test_index * nshape_trial + trial_index
      < nshape_test * nshape_trial * element_index
        + nshape_test * nshape_trial := by
    have h1 := flat_index_lt nshape_test nshape_trial test_index trial_index
      htf htrf
    calc nshape_test * nshape_trial * element_index
          + test_index * nshape_trial + trial_index
        = nshape_test * nshape_trial * element_index
          + (test_index * nshape_trial + trial_index) := by ring
    _ < nshape_test * nshape_trial * element_index
          + nshape_test * nshape_trial := Nat.add_lt_add_left h1 _
  have hsub : nshape_test * nshape_trial * element_index
      + test_index * nshape_trial + trial_index
      - nshape_test * nshape_trial * element_index
      = test_index * nshape_trial + trial_index := by
    rw [Nat.add_assoc, Nat.add_sub_cancel_left]
  simp only [l2_identity_kernel]
  rw [if_pos ⟨hin, hlt⟩, hsub,
    (flat_index_decode nshape_trial test_index trial_index htrf).1,
    (flat_index_decode nshape_trial test_index trial_index htrf).2]
  simp only [l2_identity_kernel_cell]

/-- Peeling one element off the sparse driver's loop. -/
theorem default_sparse_kernel_succ
    (grid_data : GridData) (nshape_test nshape_trial : ℕ) (elements : ℕ → ℕ)
    (quad_points : Fin 2 → ℕ → ℝ) (quad_weights : ℕ → ℝ)
    (test_normal_multipliers trial_normal_multipliers : ℕ → ℝ)
    (test_shapeset trial_shapeset : (Fin 2 → ℕ → ℝ) → ℕ → ℕ → ℕ → ℝ)
    (dimension n_quad_points : ℕ) (kernel_evaluator : SparseKernelEvaluator)
    (n : ℕ) (result : ℕ → ℝ) :
    default_sparse_kernel grid_data nshape_test nshape_trial elements (n + 1)
        quad_points quad_weights test_normal_multipliers
        trial_normal_multipliers test_shapeset trial_shapeset dimension
        n_quad_points kernel_evaluator result
      = kernel_evaluator grid_data nshape_test nshape_trial n elements
          quad_points quad_weights
          (get_normals grid_data n_quad_points elements
            trial_normal_multipliers)
          (get_normals grid_data n_quad_points elements
            test_normal_multipliers)
          test_shapeset trial_shapeset dimension n_quad_points
          (default_sparse_kernel grid_data nshape_test nshape_trial elements
            n quad_points quad_weights test_normal_multipliers
            trial_normal_multipliers test_shapeset trial_shapeset dimension
            n_quad_points kernel_evaluator result) := by
  simp only [default_sparse_kernel, List.range_succ, List.foldl_append,
    List.foldl_cons, List.foldl_nil]

/-- Cells above every processed element's block are never written by the
sparse driver running `l2_identity_kernel`. -/
theorem sparse_fold_above
    (grid_data : GridData) (nshape_test nshape_trial : ℕ) (elements : ℕ → ℕ)
    (quad_points : Fin 2 → ℕ → ℝ) (quad_weights : ℕ → ℝ)
    (test_normal_multipliers trial_normal_multipliers : ℕ → ℝ)
    (test_shapeset trial_shapeset : (Fin 2 → ℕ → ℝ) → ℕ → ℕ → ℕ → ℝ)
    (dimension n_quad_points : ℕ) :
    ∀ (n k : ℕ) (result : ℕ → ℝ),
      (∀ e, e < n → nshape_test * nshape_trial * e
          + nshape_test * nshape_trial ≤ k) →
      default_sparse_kernel grid_data nshape_test nshape_trial elements n
          quad_points quad_weights test_normal_multipliers
          trial_normal_multipliers test_shapeset trial_shapeset dimension
          n_quad_points l2_identity_kernel result k
        = result k := by
  intro n
  induction n with
  | zero =>
    intro k result hk
    simp [default_sparse_kernel]
  | succ n ih =>
    intro k result hk
    rw [default_sparse_kernel_succ, l2_identity_kernel_outside _ _ _ _ _ _ _
      _ _ _ _ _ _ _ _ (Or.inr (hk n (Nat.lt_succ_self n)))]
    exact ih k result (fun e he => hk e (Nat.lt_succ_of_lt he))

/-- The sparse driver running `l2_identity_kernel` adds, to the cell of a
processed element's basis pair, exactly that element's local Gram sum. -/
theorem sparse_fold_value
    (grid_data : GridData) (nshape_test nshape_trial : ℕ) (elements : ℕ → ℕ)
    (quad_points : Fin 2 → ℕ → ℝ) (quad_weights : ℕ → ℝ)
    (test_normal_multipliers trial_normal_multipliers : ℕ → ℝ)
    (test_shapeset trial_shapeset : (Fin 2 → ℕ → ℝ) → ℕ → ℕ → ℕ → ℝ)
    (dimension n_quad_points : ℕ) :
    ∀ (n e test_index trial_index : ℕ) (result : ℕ → ℝ),
      e < n → test_index < nshape_test → trial_index < nshape_trial →
      default_sparse_kernel grid_data nshape_test nshape_trial elements n
          quad_points quad_weights test_normal_multipliers
          trial_normal_multipliers test_shapeset trial_shapeset dimension
          n_quad_points l2_identity_kernel result
          (nshape_test * nshape_trial * e
            + test_index * nshape_trial + trial_index)
        = result (nshape_test * nshape_trial * e
              + test_index * nshape_trial + trial_index)
          + ∑ dim_index ∈ Finset.range dimension,
              ∑ quad_index ∈ Finset.range n_quad_points,
                test_shapeset quad_points dim_index test_index quad_index
                  * trial_shapeset quad_points dim_index trial_index quad_index
                  * quad_weights quad_index
                  * grid_data.integration_elements (elements e) := by
  intro n
  induction n with
  | zero =>
    intro e test_index trial_index result he htf htrf
    exact absurd he (Nat.not_lt_zero e)
  | succ n ih =>
    intro e test_index trial_index result he htf htrf
    have hoff := flat_index_lt nshape_test nshape_trial test_index trial_index
      htf htrf
    rcases Nat.lt_succ_iff_lt_or_eq.mp he with he2 | he2
    · have hbelow : nshape_test * nshape_trial * e
          + test_index * nshape_trial + trial_index
          < nshape_test * nshape_trial * n := by
        calc nshape_test * nshape_trial * e
              + test_index * nshape_trial + trial_index
            < nshape_test * nshape_trial * e
              + nshape_test * nshape_trial := by
              rw [Nat.add_assoc]
              exact Nat.add_lt_add_left hoff _
        _ = nshape_test * nshape_trial * (e + 1) := by ring
        _ ≤ nshape_test * nshape_trial * n :=
            Nat.mul_le_mul_left _ he2
      rw [default_sparse_kernel_succ, l2_identity_kernel_outside _ _ _ _ _ _
        _ _ _ _ _ _ _ _ _ (Or.inl hbelow)]
      exact ih e test_index trial_index result he2 htf htrf
    · subst he2
      rw [default_sparse_kernel_succ, l2_identity_kernel_at _ _ _ _ _ _ _ _ _
        _ _ _ _ _ _ _ htf htrf]
      rw [sparse_fold_above grid_data nshape_test nshape_trial elements
        quad_points quad_weights test_normal_multipliers
        trial_normal_multipliers test_shapeset trial_shapeset dimension
        n_quad_points e _ result ?_]
      intro e2 he2
      calc nshape_test * nshape_trial * e2 + nshape_test * nshape_trial
          = nshape_test * nshape_trial * (e2 + 1) := by ring
      _ ≤ nshape_test * nshape_trial * e := Nat.mul_le_mul_left _ he2
      _ ≤ nshape_test * nshape_trial * e
            + test_index * nshape_trial + trial_index :=
          Nat.le_trans (Nat.le_add_right _ _) (Nat.le_add_right _ _)

/-- C6: running the sparse driver with `l2_identity_kernel` on an initially
zero buffer leaves, in the cell at flat index
`nshape_test*nshape_trial*element_index + i*nshape_trial + j` of every
processed element, the local Gram sum
`Σ_dim Σ_quad test_shape[dim,i,q] * trial_shape[dim,j,q] * weight[q] *
integration_element` — a formula in which no Green's-function kernel value
appears — and `l2_identity_kernel` leaves every cell outside its own
element's block untouched. -/
theorem sparse_driver_local_gram
    (grid_data : GridData) (nshape_test nshape_trial : ℕ) (elements : ℕ → ℕ)
    (nelements : ℕ)
    (quad_points : Fin 2 → ℕ → ℝ) (quad_weights : ℕ → ℝ)
    (test_normal_multipliers trial_normal_multipliers : ℕ → ℝ)
    (test_shapeset trial_shapeset : (Fin 2 → ℕ → ℝ) → ℕ → ℕ → ℕ → ℝ)
    (dimension n_quad_points : ℕ)
    (element_index test_index trial_index : ℕ)
    (he : element_index < nelements)
    (htf : test_index < nshape_test) (htrf : trial_index < nshape_trial) :
    default_sparse_kernel grid_data nshape_test nshape_trial elements
        nelements quad_points quad_weights test_normal_multipliers
        trial_normal_multipliers test_shapeset trial_shapeset dimension
        n_quad_points l2_identity_kernel (fun _ => 0)
        (nshape_test * nshape_trial * element_index
          + test_index * nshape_trial + trial_index)
      = ∑ dim_index ∈ Finset.range dimension,
          ∑ quad_index ∈ Finset.range n_quad_points,
            test_shapeset quad_points dim_index test_index quad_index
              * trial_shapeset quad_points dim_index trial_index quad_index
              * quad_weights quad_index
              * grid_data.integration_elements (elements element_index)
    ∧ ∀ (trial_normals test_normals : Fin 3 → ℕ → ℝ) (result : ℕ → ℝ)
        (k : ℕ),
        (k < nshape_test * nshape_trial * element_index
          ∨ nshape_test * nshape_trial * element_index
              + nshape_test * nshape_trial ≤ k) →
        l2_identity_kernel grid_data nshape_test nshape_trial element_index
            elements quad_points quad_weights trial_normals test_normals
            test_shapeset trial_shapeset dimension n_quad_points result k
          = result k := by
  constructor
  · rw [sparse_fold_value grid_data nshape_test nshape_trial elements
      quad_points quad_weights test_normal_multipliers
      trial_normal_multipliers test_shapeset trial_shapeset dimension
      n_quad_points nelements element_index test_index trial_index
      (fun _ => 0) he htf htrf]
    rw [zero_add]
  · intro trial_normals test_normals result k hk
    exact l2_identity_kernel_outside grid_data nshape_test nshape_trial
      element_index elements quad_points quad_weights trial_normals
      test_normals test_shapeset trial_shapeset dimension n_quad_points
      result k hk

/-- Witness for C6 at a concrete one-element, one-basis configuration with a
zero-dimensional shape array: the Gram cell evaluates to `0`. -/
theorem sparse_driver_local_gram_witness :
    (0:ℕ) < 1
    ∧ default_sparse_kernel zeroGridData 1 1 (fun _ => 0) 1 (fun _ _ => 0)
        (fun _ => 0) (fun _ => 0) (fun _ => 0) (fun _ _ _ _ => 0)
        (fun _ _ _ _ => 0) 0 0 l2_identity_kernel (fun _ => 0)
        (1 * 1 * 0 + 0 * 1 + 0) = 0 := by
  refine ⟨Nat.zero_lt_one, ?_⟩
  have h := (sparse_driver_local_gram zeroGridData 1 1 (fun _ => 0) 1
    (fun _ _ => 0) (fun _ => 0) (fun _ => 0) (fun _ => 0)
    (fun _ _ _ _ => 0) (fun _ _ _ _ => 0) 0 0 0 0 0 Nat.zero_lt_one
    Nat.zero_lt_one Nat.zero_lt_one).1
  rw [h]
  simp

end SparseDriverClaim

section DispatchClaim

/-- Tags naming the assembly functions of the source module, used as the
values of the dispatch tables. -/
inductive NumbaAssemblyFunction where
  | default_scalar_singular_kernel
  | laplace_hypersingular_singular
  | default_scalar_regular_kernel
  | laplace_hypersingular_regular
  | default_sparse_kernel
deriving DecidableEq

/-- Tags naming the kernel evaluator functions of the source module. -/
inductive NumbaKernelFunction where
  | laplace_single_layer_regular
  | laplace_double_layer_regular
  | laplace_adjoint_double_layer_regular
  | helmholtz_single_layer_regular
  | laplace_single_layer_singular
  | laplace_double_layer_singular
  | laplace_adjoint_double_layer_singular
  | helmholtz_single_layer_singular
  | l2_identity_kernel
deriving DecidableEq

/-- The operator descriptor: an assembly-kind string and a kernel-kind
string (kernel parameters play no role in dispatch). -/
structure OperatorDescriptor where
  assembly_type : String
  kernel_type : String

/-- `assembly_functions_singular` dictionary of `select_numba_kernels`. -/
def assembly_functions_singular : List (String × NumbaAssemblyFunction) :=
  [("default_scalar", NumbaAssemblyFunction.default_scalar_singular_kernel),
   ("laplace_hypersingular", NumbaAssemblyFunction.laplace_hypersingular_singular)]

/-- `assembly_functions_regular` dictionary of `select_numba_kernels`. -/
def assembly_functions_regular : List (String × NumbaAssemblyFunction) :=
  [("default_scalar", NumbaAssemblyFunction.default_scalar_regular_kernel),
   ("laplace_hypersingular", NumbaAssemblyFunction.laplace_hypersingular_regular)]

/-- `assembly_functions_sparse` dictionary of `select_numba_kernels`. -/
def assembly_functions_sparse : List (String × NumbaAssemblyFunction) :=
  [("default_sparse", NumbaAssemblyFunction.default_sparse_kernel)]

/-- `kernel_functions_regular` dictionary of `select_numba_kernels`. -/
def kernel_functions_regular : List (String × NumbaKernelFunction) :=
  [("laplace_single_layer", NumbaKernelFunction.laplace_single_layer_regular),
   ("laplace_double_layer", NumbaKernelFunction.laplace_double_layer_regular),
   ("laplace_adjoint_double_layer",
     NumbaKernelFunction.laplace_adjoint_double_layer_regular),
   ("helmholtz_single_layer", NumbaKernelFunction.helmholtz_single_layer_regular)]

/-- `kernel_functions_singular` dictionary of `select_numba_kernels`. -/
def kernel_functions_singular : List (String × NumbaKernelFunction) :=
  [("laplace_single_layer", NumbaKernelFunction.laplace_single_layer_singular),
   ("laplace_double_layer", NumbaKernelFunction.laplace_double_layer_singular),
   ("laplace_adjoint_double_layer",
     NumbaKernelFunction.laplace_adjoint_double_layer_singular),
   ("helmholtz_single_layer", NumbaKernelFunction.helmholtz_single_layer_singular)]

/-- `kernel_functions_sparse` dictionary of `select_numba_kernels`. -/
def kernel_functions_sparse : List (String × NumbaKernelFunction) :=
  [("l2_identity", NumbaKernelFunction.l2_identity_kernel)]

/-- Embedding of `select_numba_kernels`: dictionary lookups keyed by the
mode and the descriptor's kind strings; a failed dictionary access is the
Python `KeyError`, an unknown mode raises the source's `ValueError`. -/
def select_numba_kernels (operator_descriptor : OperatorDescriptor)
    (mode : String) :
    Except String (NumbaAssemblyFunction × NumbaKernelFunction) :=
  if mode = "regular" then
    match List.lookup operator_descriptor.assembly_type
        assembly_functions_regular,
      List.lookup operator_descriptor.kernel_type kernel_functions_regular with
    | some a, some k => Except.ok (a, k)
    | _, _ => Except.error "KeyError"
  else if mode = "singular" then
    match List.lookup operator_descriptor.assembly_type
        assembly_functions_singular,
      List.lookup operator_descriptor.kernel_type kernel_functions_singular with
    | some a, some k => Except.ok (a, k)
    | _, _ => Except.error "KeyError"
  else if mode = "sparse" then
    match List.lookup operator_descriptor.assembly_type
        assembly_functions_sparse,
      List.lookup operator_descriptor.kernel_type kernel_functions_sparse with
    | some a, some k => Except.ok (a, k)
    | _, _ => Except.error "KeyError"
  else Except.error "mode must be one of singular, regular or sparse."

/-- C9: `select_numba_kernels` fails with an error (and returns no function
pair) whenever the mode is not one of regular/singular/sparse, or the
descriptor's assembly or kernel kind is unknown to that mode's dictionaries;
for known combinations it returns the matching pair without error. -/
theorem select_numba_kernels_dispatch :
    (∀ (d : OperatorDescriptor) (mode : String),
      mode ≠ "regular" → mode ≠ "singular" → mode ≠ "sparse" →
      select_numba_kernels d mode
        = Except.error "mode must be one of singular, regular or sparse.")
    ∧ (∀ d : OperatorDescriptor,
      List.lookup d.assembly_type assembly_functions_regular = none
        ∨ List.lookup d.kernel_type kernel_functions_regular = none →
      ∃ msg, select_numba_kernels d "regular" = Except.error msg)
    ∧ (∀ d : OperatorDescriptor,
      List.lookup d.assembly_type assembly_functions_singular = none
        ∨ List.lookup d.kernel_type kernel_functions_singular = none →
      ∃ msg, select_numba_kernels d "singular" = Except.error msg)
    ∧ (∀ d : OperatorDescriptor,
      List.lookup d.assembly_type assembly_functions_sparse = none
        ∨ List.lookup d.kernel_type kernel_functions_sparse = none →
      ∃ msg, select_numba_kernels d "sparse" = Except.error msg)
    ∧ (∀ (d : OperatorDescriptor) (a : NumbaAssemblyFunction)
        (k : NumbaKernelFunction),
      List.lookup d.assembly_type assembly_functions_regular = some a →
      List.lookup d.kernel_type kernel_functions_regular = some k →
      select_numba_kernels d "regular" = Except.ok (a, k))
    ∧ (∀ (d : OperatorDescriptor) (a : NumbaAssemblyFunction)
        (k : NumbaKernelFunction),
      List.lookup d.assembly_type assembly_functions_singular = some a →
      List.lookup d.kernel_type kernel_functions_singular = some k →
      select_numba_kernels d "singular" = Except.ok (a, k))
    ∧ (∀ (d : OperatorDescriptor) (a : NumbaAssemblyFunction)
        (k : NumbaKernelFunction),
      List.lookup d.assembly_type assembly_functions_sparse = some a →
      List.lookup d.kernel_type kernel_functions_sparse = some k →
      select_numba_kernels d "sparse" = Except.ok (a, k)) := by
  refine ⟨?_, ?_, ?_, ?_, ?_, ?_, ?_⟩
  · intro d mode h1 h2 h3
    simp [select_numba_kernels, h1, h2, h3]
  · intro d h
    rcases h with h | h
    · cases hK : List.lookup d.kernel_type kernel_functions_regular <;>
        simp [select_numba_kernels, h, hK]
    · cases hA : List.lookup d.assembly_type assembly_functions_regular <;>
        simp [select_numba_kernels, h, hA]
  · intro d h
    rcases h with h | h
    · cases hK : List.lookup d.kernel_type kernel_functions_singular <;>
        simp [select_numba_kernels, h, hK]
    · cases hA : List.lookup d.assembly_type assembly_functions_singular <;>
        simp [select_numba_kernels, h, hA]
  · intro d h
    rcases h with h | h
    · cases hK : List.lookup d.kernel_type kernel_functions_sparse <;>
        simp [select_numba_kernels, h, hK]
    · cases hA : List.lookup d.assembly_type assembly_functions_sparse <;>
        simp [select_numba_kernels, h, hA]
  · intro d a k hA hK
    simp [select_numba_kernels, hA, hK]
  · intro d a k hA hK
    simp [select_numba_kernels, hA, hK]
  · intro d a k hA hK
    simp [select_numba_kernels, hA, hK]

/-- Witness for C9: the known combination (default_scalar,
laplace_single_layer, regular) dispatches to the regular scalar assembly
function and the regular Laplace single-layer kernel. -/
theorem select_numba_kernels_dispatch_witness :
    select_numba_kernels
        { assembly_type := "default_scalar",
          kernel_type := "laplace_single_layer" } "regular"
      = Except.ok (NumbaAssemblyFunction.default_scalar_regular_kernel,
          NumbaKernelFunction.laplace_single_layer_regular) := by
  exact select_numba_kernels_dispatch.2.2.2.2.1
    { assembly_type := "default_scalar",
      kernel_type := "laplace_single_layer" }
    NumbaAssemblyFunction.default_scalar_regular_kernel
    NumbaKernelFunction.laplace_single_layer_regular rfl rfl

end DispatchClaim

section RegularSphereClaim

/-- A surrogate for the external `Grid` object built by `regular_sphere`. -/
structure SphereGrid where
  number_of_elements : ℕ

/-- Modelled from the spec: loading the stored sphere mesh of a refinement
level from the external data file `regular_spheres.npz` and constructing the
external `Grid` object; per the spec the resulting sphere approximation has
`8 * 4 ** refine_level` elements. -/
def load_regular_sphere (refine_level : ℤ) : SphereGrid :=
  { number_of_elements := 8 * 4 ^ refine_level.toNat }

/-- Embedding of `regular_sphere` from `bempp/api/shapes/shapes.py`: the
guard `refine_level > 9` raises `ValueError` before any mesh data is
loaded; otherwise the stored mesh is loaded and the grid returned. -/
def regular_sphere (refine_level : ℤ) : Except String SphereGrid :=
  if refine_level > 9 then
    Except.error "refine_level larger than 9 not supported."
  else Except.ok (load_regular_sphere refine_level)

/-- C10: `regular_sphere` raises the ValueError exactly when
`refine_level > 9`, before any mesh data is loaded; for `refine_level ≤ 9`
the guard passes and the function returns the grid built from the stored
data. -/
theorem regular_sphere_guard (refine_level : ℤ) :
    (refine_level > 9 →
      regular_sphere refine_level
        = Except.error "refine_level larger than 9 not supported.")
    ∧ (refine_level ≤ 9 →
      regular_sphere refine_level
        = Except.ok (load_regular_sphere refine_level)) := by
  constructor
  · intro h
    simp only [regular_sphere]
    rw [if_pos h]
  · intro h
    simp only [regular_sphere]
    rw [if_neg (not_lt.mpr h)]

/-- Witness for C10: level 10 is rejected, level 9 passes the guard. -/
theorem regular_sphere_guard_witness :
    ((10:ℤ) > 9
      ∧ regular_sphere 10
          = Except.error "refine_level larger than 9 not supported.")
    ∧ ((9:ℤ) ≤ 9
      ∧ regular_sphere 9 = Except.ok (load_regular_sphere 9)) := by
  refine ⟨⟨by norm_num, (regular_sphere_guard 10).1 (by norm_num)⟩,
    ⟨le_refl _, (regular_sphere_guard 9).2 (le_refl _)⟩⟩

end RegularSphereClaim
